import Mathlib

/-!
Verification of the `veres-one-validator` operation validator.

The repository ships the DID json-schema (`schemas/did.js`, whose regular
expression is embedded verbatim below as `didPatternOk`) together with the
test suite exercising `validate`.  The `validate` implementation itself is
not part of the sources, so the pipeline is modelled from the
specification (spec.md sections 3, 4, 6 and 7), with the check ordering
pinned by the behaviours the test suite demands (for example, the
"rejects an altered operation" test shows the detached signature is
verified before the capability-target comparison, and before the patch
target is loaded from the ledger).

Cryptographic primitives (Ed25519, JSON-LD canonicalization, base58
multicodec fingerprints) are external collaborators per spec section 1;
they are modelled symbolically: a `Jws` records the signing key and the
exact content signed, and signature verification is equality of the
recorded content with the content being verified, plus equality of the
signer key and the resolved key.
-/

namespace VeresOne

/-- A verification method of a DID document (spec section 3). -/
structure VerificationMethod where
  id : String
  type : String
  controller : String
  publicKeyBase58 : String
deriving DecidableEq

/-- A service descriptor of a DID document (spec section 3). -/
structure ServiceDescriptor where
  id : String
  type : String
  serviceEndpoint : String
deriving DecidableEq

/-- A DID document (spec section 3). -/
structure DidDocument where
  id : String
  authentication : List VerificationMethod
  capabilityInvocation : List VerificationMethod
  capabilityDelegation : List VerificationMethod
  service : List ServiceDescriptor
deriving DecidableEq

/-- Modelled from the spec: JSON-patch application is an external
collaborator (spec sections 1 and 9); the model provides the patch
operations the validator's own checks depend on (extending a
proof-purpose section, adding or removing a service descriptor). -/
inductive PatchOp where
  | addAuthentication (vm : VerificationMethod)
  | addService (sd : ServiceDescriptor)
  | removeService (id : String)
deriving DecidableEq

/-- The payload of an operation: a create carries the new record, an
update carries the patch target, sequence and patch (spec section 3; the
`type` tag of the JSON shape is the constructor). -/
inductive OpContent where
  | create (record : DidDocument)
  | update (target : String) (sequence : Nat) (patch : List PatchOp)
deriving DecidableEq

/-- The proof node minus its signature value (spec section 3). -/
structure ProofData where
  type : String
  created : String
  verificationMethod : String
  proofPurpose : String
  capability : String
  capabilityAction : String
deriving DecidableEq

/-- Modelled from the spec: the detached Ed25519 signature over the
canonicalized operation (spec section 4.5 step 6) is symbolic: it records
the public key of the signing key pair and the exact content that was
signed (operation payload and proof node minus the signature itself). -/
structure Jws where
  signerPk : String
  signedContent : OpContent
  signedProofData : ProofData
deriving DecidableEq

/-- A complete proof node. -/
structure Proof extends ProofData where
  jws : Jws
deriving DecidableEq

/-- A signed web-ledger operation. -/
structure Operation where
  content : OpContent
  proof : List Proof
deriving DecidableEq

/-- Signing: produce the proof node a holder of the key pair with public
part `signerPk` attaches over content `c` and proof metadata `pd`. -/
def signOperation (signerPk : String) (c : OpContent) (pd : ProofData) : Proof :=
  { toProofData := pd, jws := { signerPk := signerPk, signedContent := c, signedProofData := pd } }

/-- Signature verification against the resolved public key: the signer's
key must be the resolved key and the signed bytes must be the present
operation content and proof metadata (any byte changed after signing
makes this fail). -/
def verifySignature (resolvedPk : String) (op : Operation) (p : Proof) : Bool :=
  p.jws.signerPk == resolvedPk &&
  p.jws.signedContent == op.content &&
  p.jws.signedProofData == p.toProofData

/-- A validator parameter set document (spec section 3). -/
structure ValidatorParameterSet where
  id : String
  allowedServiceBaseUrl : List String
deriving DecidableEq

/-- A ledger-resident document: a DID document or a parameter set. -/
inductive LedgerDoc where
  | didDoc (d : DidDocument)
  | paramSet (p : ValidatorParameterSet)
deriving DecidableEq

/-- The ledger view at the call's `basisBlockHeight` (spec section 3,
`LedgerView`): a finite map from record ids to documents. -/
abbrev Ledger := List (String × LedgerDoc)

/-- `ledgerView.getRecord` (spec section 3). -/
def getRecord (L : Ledger) (recId : String) : Option LedgerDoc :=
  (L.find? (fun e => e.1 == recId)).map (fun e => e.2)

/-- Ledger lookup restricted to DID documents. -/
def getDidRecord (L : Ledger) (recId : String) : Option DidDocument :=
  match getRecord L recId with
  | some (LedgerDoc.didDoc d) => some d
  | _ => none

/-- Ledger lookup restricted to validator parameter sets. -/
def getParamSetRecord (L : Ledger) (recId : String) : Option ValidatorParameterSet :=
  match getRecord L recId with
  | some (LedgerDoc.paramSet p) => some p
  | _ => none

/-- The validator configuration (spec sections 3 and 6). -/
structure ValidatorConfig where
  type : String
  validatorParameterSet : Option String
deriving DecidableEq

/-- Decides whether `pre` is a leading segment of the second list,
comparing characters one by one. -/
def listPrefixOf : List Char → List Char → Bool
  | [], _ => true
  | _ :: _, [] => false
  | c :: cs, d :: ds => c == d && listPrefixOf cs ds

/-- `a` starts with `b`. -/
def strStartsWith (a b : String) : Bool :=
  listPrefixOf b.data a.data

/-- `needle` occurs as a contiguous run inside `hay`. -/
def subListOf (needle : List Char) : List Char → Bool
  | [] => listPrefixOf needle []
  | c :: t => listPrefixOf needle (c :: t) || subListOf needle t

/-- `hay` contains `needle` as a substring. -/
def strContains (hay needle : String) : Bool :=
  subListOf needle.data hay.data

/-- Modelled from the spec: `fingerprint` (spec section 4.1) is the
multibase `z` prefix over the base58 multicodec encoding of the public
key; the encoding itself is an external collaborator and is modelled as
the identity on the base58 key body. -/
def fingerprint (publicKeyBase58 : String) : String :=
  "z" ++ publicKeyBase58

/-- The DID prefix chosen by the operating environment; source
`schemas/did.js`: the pattern is the test variant exactly when
`cfg.environment` is the string given by the test configuration. -/
def didPfx (testEnv : Bool) : String :=
  if testEnv then "did:v1:test:nym:" else "did:v1:nym:"

/-- An anchored match: the input must begin with `pfx` and continue with
a nonempty run of characters satisfying `good`, ending there. -/
def matchAnchored (pfx : List Char) (good : Char → Bool) : List Char → Bool
  | s =>
    match pfx, s with
    | [], rest => !rest.isEmpty && rest.all good
    | _ :: _, [] => false
    | p :: ps, c :: cs => p == c && matchAnchored ps good cs

/-- A character of the suffix class of the source pattern
`[-_A-Za-z0-9.]` (source `schemas/did.js` line 13). -/
def didChar (c : Char) : Bool :=
  c == '-' || c == '_' || c == '.' || c.isAlphanum

/-- A character of the base58 Bitcoin alphabet `[1-9A-HJ-NP-Za-km-z]`
(the class named by the spec, section 4.2). -/
def base58Char (c : Char) : Bool :=
  ('1' ≤ c && c ≤ '9') || ('A' ≤ c && c ≤ 'H') || ('J' ≤ c && c ≤ 'N') ||
  ('P' ≤ c && c ≤ 'Z') || ('a' ≤ c && c ≤ 'k') || ('m' ≤ c && c ≤ 'z')

/-- The DID well-formedness check of `schemas/did.js`: the anchored
pattern `did:v1:nym:` (or `did:v1:test:nym:` in a test environment)
followed by a nonempty run over `[-_A-Za-z0-9.]`. -/
def didPatternOk (testEnv : Bool) (s : String) : Bool :=
  matchAnchored (didPfx testEnv).data didChar s.data

/-- The DID check as the spec's words describe it (spec section 4.2):
same anchored shape, suffix over the base58 alphabet. -/
def didPatternSpecB58 (testEnv : Bool) (s : String) : Bool :=
  matchAnchored (didPfx testEnv).data base58Char s.data

/-- All verification methods of a document, across the three
proof-purpose sections. -/
def allVms (doc : DidDocument) : List VerificationMethod :=
  doc.authentication ++ doc.capabilityInvocation ++ doc.capabilityDelegation

/-- Structural schema checks on a DID document (spec section 4.3): valid
DID, nonempty proof-purpose sections, Ed25519 method type with a nonempty
key, well-formed service descriptors with an absolute https endpoint. -/
def docStructureOk (testEnv : Bool) (doc : DidDocument) : Bool :=
  didPatternOk testEnv doc.id &&
  !doc.authentication.isEmpty &&
  !doc.capabilityInvocation.isEmpty &&
  !doc.capabilityDelegation.isEmpty &&
  (allVms doc).all (fun vm =>
    vm.type == "Ed25519VerificationKey2018" && !vm.publicKeyBase58.isEmpty) &&
  doc.service.all (fun sd =>
    strStartsWith sd.id (doc.id ++ "#") &&
    sd.id.length > doc.id.length + 1 &&
    !sd.type.isEmpty &&
    strStartsWith sd.serviceEndpoint "https://")

/-- Cryptonym key binding (spec section 4.2): every verification method
id is the document DID followed by the `z`-fingerprint of its own public
key, and the DID itself is derived from the fingerprint of
`capabilityInvocation[0]`. -/
def keyIdsOk (testEnv : Bool) (doc : DidDocument) : Bool :=
  (allVms doc).all (fun vm => vm.id == doc.id ++ "#" ++ fingerprint vm.publicKeyBase58) &&
  (match doc.capabilityInvocation.head? with
   | some vm => doc.id == didPfx testEnv ++ fingerprint vm.publicKeyBase58
   | none => false)

/-- Every verification method is controlled by the document itself. -/
def controllersOk (doc : DidDocument) : Bool :=
  (allVms doc).all (fun vm => vm.controller == doc.id)

/-- Modelled from the spec: full DID-document validation (spec sections
4.2 and 4.3); returns the cause message of the first failing stage, as
surfaced in `error.cause` by the validator. -/
def validateDidDocument (testEnv : Bool) (doc : DidDocument) : Option String :=
  if !docStructureOk testEnv doc then some "Invalid DID document structure."
  else if !keyIdsOk testEnv doc then some "Invalid DID key ID; key ID does not match the DID."
  else if !controllersOk doc then some "Invalid key controller."
  else none

/-- The error names of the result envelope (spec section 6). -/
inductive ErrName where
  | validation
  | duplicate
  | notFound
  | invalidState
deriving DecidableEq

/-- The wire string of an error name (spec section 6). -/
def ErrName.str : ErrName → String
  | .validation => "ValidationError"
  | .duplicate => "DuplicateError"
  | .notFound => "NotFoundError"
  | .invalidState => "InvalidStateError"

/-- One entry of `details.proofVerifyResult.error` (spec section 6). -/
structure ProofErrorInfo where
  name : String
  message : String
  httpStatusCode : Option Nat
deriving DecidableEq

/-- `details.proofVerifyResult` (spec section 6). -/
structure ProofVerifyResult where
  verified : Bool
  error : List ProofErrorInfo
deriving DecidableEq

/-- The error envelope of a failed validation (spec section 6). -/
structure ValidatorError where
  name : ErrName
  message : String
  proofVerifyResult : Option ProofVerifyResult
  allowedServiceBaseUrl : Option (List String)
  causeMessage : Option String
deriving DecidableEq

/-- The result of `validate` (spec section 6). -/
structure ValidationResult where
  valid : Bool
  error : Option ValidatorError
deriving DecidableEq

/-- A proof-verification failure wrapped in the result envelope: the top
level is a `ValidationError` and the underlying failure is preserved in
`details.proofVerifyResult.error` (spec section 7). -/
def mkProofVerifyError (nm msg : String) (code : Option Nat) : ValidatorError :=
  { name := ErrName.validation
    message := "An error occurred during proof verification."
    proofVerifyResult := some { verified := false, error := [{ name := nm, message := msg, httpStatusCode := code }] }
    allowedServiceBaseUrl := none
    causeMessage := none }

/-- The invalid-signature failure (spec section 4.5 step 6). -/
def invalidSignatureError : ValidatorError :=
  mkProofVerifyError "Error" "Invalid signature." none

/-- The unresolvable verification-method failure (spec section 4.5
step 4): a `NotFoundError` with http status 404. -/
def keyNotFoundError : ValidatorError :=
  mkProofVerifyError "NotFoundError" "Verification method not found." (some 404)

/-- The capability-target mismatch failure (spec section 4.5 step 2). -/
def targetMismatchError : ValidatorError :=
  mkProofVerifyError "Error" "The capability does not match root capability target." none

/-- The missing root-capability document failure during purpose
validation. -/
def proofTargetNotFoundError : ValidatorError :=
  mkProofVerifyError "NotFoundError" "DID Document not found." (some 404)

/-- The unauthorized-invoker failure (spec section 4.5 step 5). -/
def invokerMismatchError : ValidatorError :=
  mkProofVerifyError "Error" "The authorized invoker does not match the verification method or its controller." none

/-- The operation json-schema failure (spec section 4.5 steps 1 and 3:
the required capability-invocation proof with the proper
`capabilityAction` is enforced by schema before any proof is verified). -/
def operationSchemaError : ValidatorError :=
  { name := ErrName.validation
    message := "A validation error occurred in the operation schema."
    proofVerifyResult := none
    allowedServiceBaseUrl := none
    causeMessage := none }

/-- The duplicate-create failure (spec sections 4.8 and 7). -/
def duplicateError : ValidatorError :=
  { name := ErrName.duplicate
    message := "Duplicate DID Document."
    proofVerifyResult := none
    allowedServiceBaseUrl := none
    causeMessage := none }

/-- A DID-document validation failure with its cause. -/
def didValidationError (cause : String) : ValidatorError :=
  { name := ErrName.validation
    message := "Error validating DID."
    proofVerifyResult := none
    allowedServiceBaseUrl := none
    causeMessage := some cause }

/-- The absent update target failure (spec section 7). -/
def targetNotFoundTopError : ValidatorError :=
  { name := ErrName.notFound
    message := "DID Document not found."
    proofVerifyResult := none
    allowedServiceBaseUrl := none
    causeMessage := none }

/-- Rotation or removal of the cryptonym key by patch (spec section 4.6
step 4). -/
def keyChangeError : ValidatorError :=
  { name := ErrName.validation
    message := "The capability invocation key cannot be changed."
    proofVerifyResult := none
    allowedServiceBaseUrl := none
    causeMessage := none }

/-- The absent validator parameter set failure (spec section 4.7). -/
def paramSetMissingError : ValidatorError :=
  { name := ErrName.invalidState
    message := "The validatorParameterSet document was not found."
    proofVerifyResult := none
    allowedServiceBaseUrl := none
    causeMessage := none }

/-- A disallowed service endpoint (spec section 4.7), with
`details.allowedServiceBaseUrl` populated. -/
def serviceEndpointError (allowed : List String) : ValidatorError :=
  { name := ErrName.validation
    message := "Invalid service endpoint."
    proofVerifyResult := none
    allowedServiceBaseUrl := some allowed
    causeMessage := none }

/-- The expected `capabilityAction` for an operation kind (spec section
4.5). -/
def expectedAction : OpContent → String
  | .create _ => "create"
  | .update _ _ _ => "update"

/-- Modelled from the spec: the operation json-schema (spec sections 3
and 4.5): at least one proof, every proof an `Ed25519Signature2018`
node, and among them a capability invocation with the expected action
for the operation kind. This runs before any proof is verified. -/
def operationSchemaOk (op : Operation) : Bool :=
  !op.proof.isEmpty &&
  op.proof.all (fun p => p.type == "Ed25519Signature2018") &&
  op.proof.any (fun p =>
    p.proofPurpose == "capabilityInvocation" && p.capabilityAction == expectedAction op.content)

/-- The first capability-invocation proof of the operation (spec section
4.5 step 1). -/
def findCapabilityInvocationProof (op : Operation) : Option Proof :=
  op.proof.find? (fun p => p.proofPurpose == "capabilityInvocation")

/-- The DID part of a key id `<did>#<fragment>`. -/
def takeUntilHash : List Char → List Char
  | [] => []
  | c :: cs => if c == '#' then [] else c :: takeUntilHash cs

/-- The DID part of a key id. -/
def didOfKeyId (keyId : String) : String :=
  String.mk (takeUntilHash keyId.data)

/-- The document loader's DID resolution (spec section 4.4): a create
operation's own record answers for its DID, everything else is read from
the ledger view. -/
def loadDid (L : Ledger) (selfDoc : Option DidDocument) (did : String) : Option DidDocument :=
  match selfDoc with
  | some d => if d.id == did then some d else getDidRecord L did
  | none => getDidRecord L did

/-- The document loader's fragment resolution (spec section 4.4): load
the key id's DID document and return the verification method whose id is
the full key id; absence is a not-found condition. -/
def resolveKey (L : Ledger) (selfDoc : Option DidDocument) (keyId : String) : Option VerificationMethod :=
  match loadDid L selfDoc (didOfKeyId keyId) with
  | some d => (allVms d).find? (fun vm => vm.id == keyId)
  | none => none

/-- The outcome of verifying the capability-invocation proof. -/
inductive ProofOutcome where
  | ok
  | missingProof
  | keyNotFound
  | badSignature
  | targetMismatch
  | targetNotFound
  | invokerMismatch
deriving DecidableEq

/-- Modelled from the spec: capability-invocation proof verification
(spec section 4.5), in the order the repository's tests pin down: locate
the proof, resolve the verification method (404 when absent), verify the
detached signature, then validate the purpose: the named capability must
be the target's root capability, and the resolved key must be controlled
by the target and listed under its `capabilityInvocation`. -/
def verifyCapabilityProof (L : Ledger) (selfDoc : Option DidDocument) (target : String)
    (op : Operation) : ProofOutcome :=
  match findCapabilityInvocationProof op with
  | none => .missingProof
  | some p =>
    match resolveKey L selfDoc p.verificationMethod with
    | none => .keyNotFound
    | some key =>
      if !(verifySignature key.publicKeyBase58 op p) then .badSignature
      else if p.capability != target then .targetMismatch
      else
        match loadDid L selfDoc target with
        | none => .targetNotFound
        | some td =>
          if key.controller == target && td.capabilityInvocation.any (fun vm => vm.id == key.id) then .ok
          else .invokerMismatch

/-- Map a proof outcome to its result-envelope error. -/
def proofOutcomeError : ProofOutcome → Option ValidatorError
  | .ok => none
  | .missingProof => some operationSchemaError
  | .keyNotFound => some keyNotFoundError
  | .badSignature => some invalidSignatureError
  | .targetMismatch => some targetMismatchError
  | .targetNotFound => some proofTargetNotFoundError
  | .invokerMismatch => some invokerMismatchError

/-- One patch operation applied to a document. -/
def applyPatchOp (doc : DidDocument) : PatchOp → DidDocument
  | .addAuthentication vm => { doc with authentication := doc.authentication ++ [vm] }
  | .addService sd => { doc with service := doc.service ++ [sd] }
  | .removeService i => { doc with service := doc.service.filter (fun sd => sd.id != i) }

/-- Apply a patch to a document (spec section 4.6 step 3). -/
def applyPatch (doc : DidDocument) (patch : List PatchOp) : DidDocument :=
  patch.foldl applyPatchOp doc

/-- The cryptonym capability-invocation key survives the patch with its
public key unchanged (spec section 4.6 step 4). -/
def capInvKeyPreserved (d0 d1 : DidDocument) : Bool :=
  match d0.capabilityInvocation.head?, d1.capabilityInvocation.head? with
  | some k0, some k1 => k0.publicKeyBase58 == k1.publicKeyBase58
  | _, _ => false

/-- A service endpoint matches at least one allowed base URL by prefix
(spec section 4.7). -/
def endpointAllowed (allowed : List String) (endpoint : String) : Bool :=
  allowed.any (fun b => strStartsWith endpoint b)

/-- Modelled from the spec: the service-endpoint policy (spec section
4.7): with no configured parameter set the document is admitted; a
configured but absent parameter set is an invalid state; otherwise every
service endpoint must match an allowed base URL. -/
def checkServicePolicy (L : Ledger) (cfg : ValidatorConfig) (doc : DidDocument) : Option ValidatorError :=
  match cfg.validatorParameterSet with
  | none => none
  | some psId =>
    match getParamSetRecord L psId with
    | none => some paramSetMissingError
    | some ps =>
      if doc.service.all (fun sd => endpointAllowed ps.allowedServiceBaseUrl sd.serviceEndpoint) then none
      else some (serviceEndpointError ps.allowedServiceBaseUrl)

/-- The create operation's own record, offered to the document loader
(spec section 4.4). -/
def selfDocOf (op : Operation) : Option DidDocument :=
  match op.content with
  | .create r => some r
  | .update _ _ _ => none

/-- The DID an operation mutates (spec section 4.8). -/
def targetOf (op : Operation) : String :=
  match op.content with
  | .create r => r.id
  | .update t _ _ => t

/-- Modelled from the spec: the orchestrator (spec section 4.8), error
half. Operation schema first; then for a create: document validation,
duplicate check, proof verification, service policy; for an update:
proof verification, target load, patch application, re-validation of the
patched document, service policy. `none` means the operation is valid. -/
def validateE (testEnv : Bool) (L : Ledger) (cfg : ValidatorConfig) (op : Operation) : Option ValidatorError :=
  if !(operationSchemaOk op) then some operationSchemaError
  else
    match op.content with
    | .create r =>
      match validateDidDocument testEnv r with
      | some cause => some (didValidationError cause)
      | none =>
        match getRecord L r.id with
        | some _ => some duplicateError
        | none =>
          match proofOutcomeError (verifyCapabilityProof L (some r) r.id op) with
          | some e => some e
          | none => checkServicePolicy L cfg r
    | .update t _sq pa =>
      match proofOutcomeError (verifyCapabilityProof L none t op) with
      | some e => some e
      | none =>
        match getDidRecord L t with
        | none => some targetNotFoundTopError
        | some d0 =>
          let d1 := applyPatch d0 pa
          if !(capInvKeyPreserved d0 d1) then some keyChangeError
          else
            match validateDidDocument testEnv d1 with
            | some cause => some (didValidationError cause)
            | none => checkServicePolicy L cfg d1

/-- Modelled from the spec: the entry point (spec sections 4.8 and 6).
It never throws: every failure is reflected in the returned envelope,
and `valid` and `error` are mutually exclusive by construction. -/
def validate (testEnv : Bool) (L : Ledger) (cfg : ValidatorConfig) (op : Operation) : ValidationResult :=
  match validateE testEnv L cfg op with
  | none => { valid := true, error := none }
  | some e => { valid := false, error := some e }

/-- The checks of the orchestrator that run before proof verification
(spec section 4.8): for a create, document validation and the duplicate
check; an update goes straight to proof verification. -/
def preProofOk (testEnv : Bool) (L : Ledger) (op : Operation) : Bool :=
  match op.content with
  | .create r => (validateDidDocument testEnv r).isNone && (getRecord L r.id).isNone
  | .update _ _ _ => true

/-! Concrete scenario data, mirroring the generators of the test suite
(`_generateDid`, `_generateBadDid`, the mock operations and the mock
validator parameter set). -/

/-- The cryptonym capability-invocation key of the first DID. -/
def keyA : VerificationMethod :=
  { id := "did:v1:nym:zA1#zA1", type := "Ed25519VerificationKey2018"
    controller := "did:v1:nym:zA1", publicKeyBase58 := "A1" }

/-- The authentication key of the first DID. -/
def authKeyA : VerificationMethod :=
  { id := "did:v1:nym:zA1#zB2", type := "Ed25519VerificationKey2018"
    controller := "did:v1:nym:zA1", publicKeyBase58 := "B2" }

/-- The capability-delegation key of the first DID. -/
def delKeyA : VerificationMethod :=
  { id := "did:v1:nym:zA1#zC3", type := "Ed25519VerificationKey2018"
    controller := "did:v1:nym:zA1", publicKeyBase58 := "C3" }

/-- The first DID's document. -/
def docA : DidDocument :=
  { id := "did:v1:nym:zA1", authentication := [authKeyA]
    capabilityInvocation := [keyA], capabilityDelegation := [delKeyA], service := [] }

/-- The cryptonym capability-invocation key of the second DID. -/
def keyB : VerificationMethod :=
  { id := "did:v1:nym:zE5#zE5", type := "Ed25519VerificationKey2018"
    controller := "did:v1:nym:zE5", publicKeyBase58 := "E5" }

/-- The second DID's document. -/
def docB : DidDocument :=
  { id := "did:v1:nym:zE5", authentication := [keyB]
    capabilityInvocation := [keyB], capabilityDelegation := [keyB], service := [] }

/-- A document whose non-invocation keys belong to another DID, after
the test suite's `_generateBadDid`. -/
def docBad : DidDocument :=
  { id := "did:v1:nym:zA1", authentication := [keyB]
    capabilityInvocation := [keyA], capabilityDelegation := [delKeyA], service := [] }

/-- A ledger holding only the first DID. -/
def ledgerA : Ledger := [("did:v1:nym:zA1", LedgerDoc.didDoc docA)]

/-- A ledger holding both DIDs. -/
def ledgerAB : Ledger :=
  [("did:v1:nym:zA1", LedgerDoc.didDoc docA), ("did:v1:nym:zE5", LedgerDoc.didDoc docB)]

/-- A validator configuration with no parameter set. -/
def cfg0 : ValidatorConfig := { type := "VeresOneValidator2017", validatorParameterSet := none }

/-- Proof metadata for a capability invocation by `vm` of capability
`cap` with action `act`. -/
def mkProofData (vm cap act : String) : ProofData :=
  { type := "Ed25519Signature2018", created := "2019-07-09T12:00:00Z"
    verificationMethod := vm, proofPurpose := "capabilityInvocation"
    capability := cap, capabilityAction := act }

/-- A fresh verification method added to the first DID by update. -/
def newAuthVmA : VerificationMethod :=
  { id := "did:v1:nym:zA1#zD4", type := "Ed25519VerificationKey2018"
    controller := "did:v1:nym:zA1", publicKeyBase58 := "D4" }

/-- The update payload adding `newAuthVmA` to the first document. -/
def updContentA : OpContent :=
  OpContent.update "did:v1:nym:zA1" 1 [PatchOp.addAuthentication newAuthVmA]

/-- A properly signed update of the first DID. -/
def updOpA : Operation :=
  { content := updContentA
    proof := [signOperation "A1" updContentA (mkProofData "did:v1:nym:zA1#zA1" "did:v1:nym:zA1" "update")] }

/-- The same signed update, with the patch target rewritten to the
second DID after signing (scenario S3 of the spec, the test suite's
"rejects an altered operation"). -/
def alteredOpA : Operation :=
  { content := OpContent.update "did:v1:nym:zE5" 1 [PatchOp.addAuthentication newAuthVmA]
    proof := [signOperation "A1" updContentA (mkProofData "did:v1:nym:zA1#zA1" "did:v1:nym:zA1" "update")] }

/-! Helper lemmas. -/

/-- No error name renders as the empty string. -/
theorem errName_str_ne_empty (n : ErrName) : n.str ≠ "" := by
  cases n <;> decide

/-- `matchAnchored` is exactly the anchored-pattern semantics: the input
is the prefix followed by a nonempty run of good characters. -/
theorem matchAnchored_iff (good : Char → Bool) (pfx s : List Char) :
    matchAnchored pfx good s = true ↔
      ∃ suf, s = pfx ++ suf ∧ suf ≠ [] ∧ ∀ c ∈ suf, good c = true := by
  induction pfx generalizing s with
  | nil =>
    simp only [matchAnchored, List.nil_append, Bool.and_eq_true, List.all_eq_true]
    constructor
    · rintro ⟨h1, h2⟩
      refine ⟨s, rfl, ?_, h2⟩
      intro hs
      subst hs
      simp at h1
    · rintro ⟨suf, rfl, hne, hall⟩
      refine ⟨?_, hall⟩
      simp [List.isEmpty_iff, hne]
  | cons p ps ih =>
    cases s with
    | nil =>
      simp only [matchAnchored]
      constructor
      · intro h; exact absurd h (by simp)
      · rintro ⟨suf, h, _, _⟩
        exact absurd h (by simp)
    | cons c cs =>
      simp only [matchAnchored, Bool.and_eq_true, beq_iff_eq]
      rw [ih cs]
      constructor
      · rintro ⟨rfl, suf, rfl, hne, hall⟩
        exact ⟨suf, rfl, hne, hall⟩
      · rintro ⟨suf, heq, hne, hall⟩
        rw [List.cons_append] at heq
        injection heq with h1 h2
        exact ⟨h1.symm, suf, h2, hne, hall⟩

/-! Claim theorems. -/

/-- C10: for every input, `validate` returns a result (it is a total
function, so it never throws) whose `valid` flag and `error` field are
mutually exclusive: `valid = true` comes with no error, and
`valid = false` comes with an error object carrying a nonempty name. -/
theorem c10_result_envelope (testEnv : Bool) (L : Ledger) (cfg : ValidatorConfig) (op : Operation) :
    ((validate testEnv L cfg op).valid = true ∧ (validate testEnv L cfg op).error = none) ∨
    ((validate testEnv L cfg op).valid = false ∧
      ∃ e, (validate testEnv L cfg op).error = some e ∧ e.name.str ≠ "") := by
  cases h : validateE testEnv L cfg op with
  | none => left; simp [validate, h]
  | some e =>
    right
    refine ⟨by simp [validate, h], e, by simp [validate, h], errName_str_ne_empty e.name⟩

/-- C8 counterexample: the DID check of `schemas/did.js` accepts
`did:v1:nym:0`, but `0` is not in the base58 Bitcoin alphabet, so the
string does not match the pattern the claim states; the claimed
equivalence fails at this input. -/
theorem c8_counterexample :
    didPatternOk false "did:v1:nym:0" = true ∧ didPatternSpecB58 false "did:v1:nym:0" = false := by
  decide

/-- C8 (amended): the DID well-formedness check accepts `s` if and only
if `s` is the prefix `did:v1:nym:` (`did:v1:test:nym:` exactly when the
operating environment is test) followed by a nonempty suffix over the
source pattern's character class `[-_A-Za-z0-9.]` — which is broader
than the base58 alphabet the claim names. -/
theorem c8_did_pattern (testEnv : Bool) (s : String) :
    didPatternOk testEnv s = true ↔
      ∃ suf, s.data = (didPfx testEnv).data ++ suf ∧ suf ≠ [] ∧ ∀ c ∈ suf, didChar c = true :=
  matchAnchored_iff didChar (didPfx testEnv).data s.data

/-- C8 witness: the amended equivalence at a concrete accepted DID. -/
theorem c8_did_pattern_witness :
    ∃ suf, ("did:v1:nym:z279" : String).data = (didPfx false).data ++ suf ∧
      suf ≠ [] ∧ ∀ c ∈ suf, didChar c = true :=
  (c8_did_pattern false "did:v1:nym:z279").mp (by decide)

/-- C1: when an operation passes the operation schema and the
orchestrator's pre-proof checks, its capability-invocation proof's
verification method resolves to a key, but the detached signature does
not verify against that key (any byte of the signed content changed
after signing, or a fresh key signing under a stored key's id), the
result is invalid with a `ValidationError` whose
`proofVerifyResult.error` holds the message `Invalid signature.`. -/
theorem c1_invalid_signature (testEnv : Bool) (L : Ledger) (cfg : ValidatorConfig)
    (op : Operation) (p : Proof) (k : VerificationMethod)
    (hschema : operationSchemaOk op = true)
    (hpre : preProofOk testEnv L op = true)
    (hp : findCapabilityInvocationProof op = some p)
    (hk : resolveKey L (selfDocOf op) p.verificationMethod = some k)
    (hsig : verifySignature k.publicKeyBase58 op p = false) :
    validate testEnv L cfg op = { valid := false, error := some invalidSignatureError } := by
  obtain ⟨c, prfs⟩ := op
  cases c with
  | create r =>
    simp only [selfDocOf] at hk
    simp only [preProofOk, Bool.and_eq_true, Option.isNone_iff_eq_none] at hpre
    obtain ⟨h1, h2⟩ := hpre
    simp [validate, validateE, hschema, h1, h2, verifyCapabilityProof, hp, hk, hsig,
      proofOutcomeError]
  | update t sq pa =>
    simp only [selfDocOf] at hk
    simp [validate, validateE, hschema, verifyCapabilityProof, hp, hk, hsig,
      proofOutcomeError]

/-- The altered operation of scenario S3, validated: the signature was
computed over the original target. -/
theorem c1_invalid_signature_witness :
    validate false ledgerA cfg0 alteredOpA = { valid := false, error := some invalidSignatureError } :=
  c1_invalid_signature false ledgerA cfg0 alteredOpA
    (signOperation "A1" updContentA (mkProofData "did:v1:nym:zA1#zA1" "did:v1:nym:zA1" "update"))
    keyA (by decide) (by decide) (by decide) (by decide) (by decide)

/-- C2: a create operation whose record passes the structural schema but
contains a verification method whose id is not the document DID followed
by the z-fingerprint of that method's public key is rejected with a
`ValidationError`, message `Error validating DID.` and cause
`Invalid DID key ID; key ID does not match the DID.`. -/
theorem c2_cryptonym_binding (testEnv : Bool) (L : Ledger) (cfg : ValidatorConfig)
    (op : Operation) (r : DidDocument)
    (hc : op.content = OpContent.create r)
    (hschema : operationSchemaOk op = true)
    (hstruct : docStructureOk testEnv r = true)
    (hbad : ∃ vm ∈ allVms r, vm.id ≠ r.id ++ "#" ++ fingerprint vm.publicKeyBase58) :
    validate testEnv L cfg op =
      { valid := false
        error := some (didValidationError "Invalid DID key ID; key ID does not match the DID.") } := by
  obtain ⟨vm, hmem, hne⟩ := hbad
  have hall : ((allVms r).all fun v => v.id == r.id ++ "#" ++ fingerprint v.publicKeyBase58) = false := by
    rw [Bool.eq_false_iff]
    intro hT
    rw [List.all_eq_true] at hT
    exact hne (by simpa using hT vm hmem)
  have hkeys : keyIdsOk testEnv r = false := by
    simp [keyIdsOk, hall]
  simp [validate, validateE, hschema, hc, validateDidDocument, hstruct, hkeys]

/-- A create operation carrying the `_generateBadDid`-style document. -/
def createOpBad : Operation :=
  { content := OpContent.create docBad
    proof := [signOperation "A1" (OpContent.create docBad)
      (mkProofData "did:v1:nym:zA1#zA1" "did:v1:nym:zA1" "create")] }

/-- C2 witness: the bad document of the test suite's
`_generateBadDid` is rejected with the exact cause. -/
theorem c2_cryptonym_binding_witness :
    validate false [] cfg0 createOpBad =
      { valid := false
        error := some (didValidationError "Invalid DID key ID; key ID does not match the DID.") } :=
  c2_cryptonym_binding false [] cfg0 createOpBad docBad rfl (by decide) (by decide) (by decide)

/-- C3: for a schema-valid create operation, a record already present on
the ledger view yields a `DuplicateError`, and an absent record with all
remaining checks passing yields a valid result. -/
theorem c3_duplicate (testEnv : Bool) (L : Ledger) (cfg : ValidatorConfig)
    (op : Operation) (r : DidDocument)
    (hc : op.content = OpContent.create r)
    (hschema : operationSchemaOk op = true)
    (hdoc : validateDidDocument testEnv r = none) :
    ((∃ d, getRecord L r.id = some d) →
        validate testEnv L cfg op = { valid := false, error := some duplicateError }) ∧
    (getRecord L r.id = none →
      proofOutcomeError (verifyCapabilityProof L (some r) r.id op) = none →
      checkServicePolicy L cfg r = none →
      validate testEnv L cfg op = { valid := true, error := none }) := by
  constructor
  · rintro ⟨d, hd⟩
    simp [validate, validateE, hschema, hc, hdoc, hd]
  · intro hd hproof hpolicy
    simp [validate, validateE, hschema, hc, hdoc, hd, hproof, hpolicy]

/-- A properly signed create operation for the first DID. -/
def createOpA : Operation :=
  { content := OpContent.create docA
    proof := [signOperation "A1" (OpContent.create docA)
      (mkProofData "did:v1:nym:zA1#zA1" "did:v1:nym:zA1" "create")] }

/-- C3 witness: the same create operation is rejected as a duplicate on
a ledger already holding the DID and accepted on an empty ledger. -/
theorem c3_duplicate_witness :
    validate false ledgerA cfg0 createOpA = { valid := false, error := some duplicateError } ∧
    validate false [] cfg0 createOpA = { valid := true, error := none } :=
  ⟨(c3_duplicate false ledgerA cfg0 createOpA docA rfl (by decide) (by decide)).1
      ⟨LedgerDoc.didDoc docA, by decide⟩,
   (c3_duplicate false [] cfg0 createOpA docA rfl (by decide) (by decide)).2
      (by decide) (by decide) (by decide)⟩

/-- C4 counterexample: the altered operation of scenario S3 is an update
whose proof names a capability different from the target, yet the result
message is `Invalid signature.` — it does not contain
`does not match root capability target`, because the detached signature
is verified before the capability-target comparison. -/
theorem c4_counterexample :
    (findCapabilityInvocationProof alteredOpA).map (fun p => p.capability) = some "did:v1:nym:zA1" ∧
    targetOf alteredOpA = "did:v1:nym:zE5" ∧
    ("did:v1:nym:zA1" : String) ≠ "did:v1:nym:zE5" ∧
    validate false ledgerA cfg0 alteredOpA = { valid := false, error := some invalidSignatureError } ∧
    strContains "Invalid signature." "does not match root capability target" = false := by
  decide

/-- C4 (amended): for an update operation that passes the operation
schema, whose verification method resolves and whose signature verifies,
a proof capability different from the patch target is rejected with
`proofVerifyResult.verified = false` and a message containing
`does not match root capability target`. -/
theorem c4_target_mismatch (testEnv : Bool) (L : Ledger) (cfg : ValidatorConfig)
    (op : Operation) (p : Proof) (k : VerificationMethod)
    (t : String) (sq : Nat) (pa : List PatchOp)
    (hc : op.content = OpContent.update t sq pa)
    (hschema : operationSchemaOk op = true)
    (hp : findCapabilityInvocationProof op = some p)
    (hk : resolveKey L none p.verificationMethod = some k)
    (hsig : verifySignature k.publicKeyBase58 op p = true)
    (hcap : p.capability ≠ t) :
    validate testEnv L cfg op = { valid := false, error := some targetMismatchError } ∧
    strContains "The capability does not match root capability target."
      "does not match root capability target" = true := by
  refine ⟨?_, by decide⟩
  have hbne : (p.capability != t) = true := bne_iff_ne.mpr hcap
  simp [validate, validateE, hschema, hc, verifyCapabilityProof, hp, hk, hsig, hbne,
    proofOutcomeError]

/-- A properly signed update whose patch target is another DID than the
capability names. -/
def wrongTargetOpA : Operation :=
  { content := OpContent.update "did:v1:nym:zE5" 1 []
    proof := [signOperation "A1" (OpContent.update "did:v1:nym:zE5" 1 [])
      (mkProofData "did:v1:nym:zA1#zA1" "did:v1:nym:zA1" "update")] }

/-- C4 witness: scenario S5, an update submitted against another DID
under the signer's own root capability. -/
theorem c4_target_mismatch_witness :
    validate false ledgerA cfg0 wrongTargetOpA = { valid := false, error := some targetMismatchError } ∧
    strContains "The capability does not match root capability target."
      "does not match root capability target" = true :=
  c4_target_mismatch false ledgerA cfg0 wrongTargetOpA
    (signOperation "A1" (OpContent.update "did:v1:nym:zE5" 1 [])
      (mkProofData "did:v1:nym:zA1#zA1" "did:v1:nym:zA1" "update"))
    keyA "did:v1:nym:zE5" 1 [] rfl (by decide) (by decide) (by decide) (by decide) (by decide)

/-- C5: an update operation whose proof verifies under a resolved key
that is either not controlled by the target DID or not listed in the
target document's `capabilityInvocation` section is rejected with
`proofVerifyResult.verified = false` and the message
`The authorized invoker does not match the verification method or its controller.`. -/
theorem c5_invoker_binding (testEnv : Bool) (L : Ledger) (cfg : ValidatorConfig)
    (op : Operation) (p : Proof) (k : VerificationMethod)
    (t : String) (sq : Nat) (pa : List PatchOp) (td : DidDocument)
    (hc : op.content = OpContent.update t sq pa)
    (hschema : operationSchemaOk op = true)
    (hp : findCapabilityInvocationProof op = some p)
    (hk : resolveKey L none p.verificationMethod = some k)
    (hsig : verifySignature k.publicKeyBase58 op p = true)
    (hcap : p.capability = t)
    (htd : getDidRecord L t = some td)
    (hinv : (k.controller == t && td.capabilityInvocation.any (fun vm => vm.id == k.id)) = false) :
    validate testEnv L cfg op = { valid := false, error := some invokerMismatchError } := by
  simp [validate, validateE, hschema, hc, verifyCapabilityProof, hp, hk, hsig, hcap,
    loadDid, htd, hinv, proofOutcomeError]

/-- An update of the first DID signed, validly, with the second DID's
capability-invocation key. -/
def altSignerOpA : Operation :=
  { content := OpContent.update "did:v1:nym:zA1" 1 []
    proof := [signOperation "E5" (OpContent.update "did:v1:nym:zA1" 1 [])
      (mkProofData "did:v1:nym:zE5#zE5" "did:v1:nym:zA1" "update")] }

/-- C5 witness: scenario S4, an update of one DID signed by another
DID's capability-invocation key. -/
theorem c5_invoker_binding_witness :
    validate false ledgerAB cfg0 altSignerOpA = { valid := false, error := some invokerMismatchError } :=
  c5_invoker_binding false ledgerAB cfg0 altSignerOpA
    (signOperation "E5" (OpContent.update "did:v1:nym:zA1" 1 [])
      (mkProofData "did:v1:nym:zE5#zE5" "did:v1:nym:zA1" "update"))
    keyB "did:v1:nym:zA1" 1 [] docA rfl (by decide) (by decide) (by decide) (by decide)
    (by decide) (by decide) (by decide)

/-- C6: an update operation none of whose capability-invocation proofs
carries the expected action for updates is rejected by the operation
schema with a `ValidationError`; the rejection carries no
`proofVerifyResult`, and the statement holds for arbitrary signature
values, so it happens before any signature is checked. -/
theorem c6_action_binding (testEnv : Bool) (L : Ledger) (cfg : ValidatorConfig)
    (t : String) (sq : Nat) (pa : List PatchOp) (prfs : List Proof)
    (_hsome : ∃ p ∈ prfs, p.proofPurpose = "capabilityInvocation")
    (hact : ∀ p ∈ prfs, p.proofPurpose = "capabilityInvocation" → p.capabilityAction ≠ "update") :
    validate testEnv L cfg { content := OpContent.update t sq pa, proof := prfs } =
      { valid := false, error := some operationSchemaError } ∧
    operationSchemaError.name = ErrName.validation ∧
    operationSchemaError.proofVerifyResult = none := by
  have hany : (prfs.any fun p =>
      p.proofPurpose == "capabilityInvocation" &&
      p.capabilityAction == expectedAction (OpContent.update t sq pa)) = false := by
    rw [Bool.eq_false_iff]
    intro hT
    rw [List.any_eq_true] at hT
    obtain ⟨p, hmem, hptrue⟩ := hT
    rw [Bool.and_eq_true, beq_iff_eq, beq_iff_eq] at hptrue
    exact hact p hmem hptrue.1 (by simpa [expectedAction] using hptrue.2)
  have hschema : operationSchemaOk { content := OpContent.update t sq pa, proof := prfs } = false := by
    simp [operationSchemaOk, hany]
  exact ⟨by simp [validate, validateE, hschema], rfl, rfl⟩

/-- The update of the first DID, signed under the create action. -/
def wrongActionOpA : Operation :=
  { content := updContentA
    proof := [signOperation "A1" updContentA
      (mkProofData "did:v1:nym:zA1#zA1" "did:v1:nym:zA1" "create")] }

/-- C6 witness: scenario S7, an update signed with the create action. -/
theorem c6_action_binding_witness :
    validate false ledgerA cfg0 wrongActionOpA =
      { valid := false, error := some operationSchemaError } ∧
    operationSchemaError.name = ErrName.validation ∧
    operationSchemaError.proofVerifyResult = none :=
  c6_action_binding false ledgerA cfg0 "did:v1:nym:zA1" 1
    [PatchOp.addAuthentication newAuthVmA]
    [signOperation "A1" updContentA (mkProofData "did:v1:nym:zA1#zA1" "did:v1:nym:zA1" "create")]
    (by decide) (by decide)

/-- C7: an operation that passes the schema and pre-proof checks but
whose proof verification method cannot be resolved to a verification
method of the loaded DID document fails: the result carries a
`NotFoundError` with http status 404 inside
`details.proofVerifyResult.error`, under a top-level
`ValidationError`. -/
theorem c7_key_not_found (testEnv : Bool) (L : Ledger) (cfg : ValidatorConfig)
    (op : Operation) (p : Proof)
    (hschema : operationSchemaOk op = true)
    (hpre : preProofOk testEnv L op = true)
    (hp : findCapabilityInvocationProof op = some p)
    (hk : resolveKey L (selfDocOf op) p.verificationMethod = none) :
    validate testEnv L cfg op = { valid := false, error := some keyNotFoundError } ∧
    keyNotFoundError.name = ErrName.validation ∧
    keyNotFoundError.proofVerifyResult = some
      { verified := false
        error := [{ name := "NotFoundError", message := "Verification method not found.",
                    httpStatusCode := some 404 }] } := by
  refine ⟨?_, rfl, rfl⟩
  obtain ⟨c, prfs⟩ := op
  cases c with
  | create r =>
    simp only [selfDocOf] at hk
    simp only [preProofOk, Bool.and_eq_true, Option.isNone_iff_eq_none] at hpre
    obtain ⟨h1, h2⟩ := hpre
    simp [validate, validateE, hschema, h1, h2, verifyCapabilityProof, hp, hk,
      proofOutcomeError]
  | update t sq pa =>
    simp only [selfDocOf] at hk
    simp [validate, validateE, hschema, verifyCapabilityProof, hp, hk, proofOutcomeError]

/-- The update signed with a fresh key whose id is not a verification
method of the stored document. -/
def missingKeyOpA : Operation :=
  { content := updContentA
    proof := [signOperation "D4" updContentA
      (mkProofData "did:v1:nym:zA1#zD4" "did:v1:nym:zA1" "update")] }

/-- C7 witness: the improper-key scenario of the test suite. -/
theorem c7_key_not_found_witness :
    validate false ledgerA cfg0 missingKeyOpA = { valid := false, error := some keyNotFoundError } ∧
    keyNotFoundError.name = ErrName.validation ∧
    keyNotFoundError.proofVerifyResult = some
      { verified := false
        error := [{ name := "NotFoundError", message := "Verification method not found.",
                    httpStatusCode := some 404 }] } :=
  c7_key_not_found false ledgerA cfg0 missingKeyOpA
    (signOperation "D4" updContentA (mkProofData "did:v1:nym:zA1#zD4" "did:v1:nym:zA1" "update"))
    (by decide) (by decide) (by decide) (by decide)

/-- C9: with a configured parameter set resolving to an allowed base URL
list, a create operation passing all earlier checks is rejected with a
`ValidationError` carrying `details.allowedServiceBaseUrl` whenever some
service endpoint matches no allowed base (even when others do), and
accepted when every service endpoint matches an allowed base. -/
theorem c9_service_policy (testEnv : Bool) (L : Ledger) (cfg : ValidatorConfig)
    (op : Operation) (r : DidDocument) (pid : String) (ps : ValidatorParameterSet)
    (hc : op.content = OpContent.create r)
    (hschema : operationSchemaOk op = true)
    (hdoc : validateDidDocument testEnv r = none)
    (hdup : getRecord L r.id = none)
    (hproof : proofOutcomeError (verifyCapabilityProof L (some r) r.id op) = none)
    (hcfg : cfg.validatorParameterSet = some pid)
    (hps : getParamSetRecord L pid = some ps) :
    ((∃ sd ∈ r.service, endpointAllowed ps.allowedServiceBaseUrl sd.serviceEndpoint = false) →
        validate testEnv L cfg op =
          { valid := false, error := some (serviceEndpointError ps.allowedServiceBaseUrl) }) ∧
    ((∀ sd ∈ r.service, endpointAllowed ps.allowedServiceBaseUrl sd.serviceEndpoint = true) →
        validate testEnv L cfg op = { valid := true, error := none }) := by
  constructor
  · rintro ⟨sd, hmem, hsd⟩
    have hall : (r.service.all fun s => endpointAllowed ps.allowedServiceBaseUrl s.serviceEndpoint) = false := by
      rw [Bool.eq_false_iff]
      intro hT
      rw [List.all_eq_true] at hT
      have := hT sd hmem
      rw [hsd] at this
      simp at this
    simp [validate, validateE, hschema, hc, hdoc, hdup, hproof, checkServicePolicy,
      hcfg, hps, hall]
  · intro hgood
    have hall : (r.service.all fun s => endpointAllowed ps.allowedServiceBaseUrl s.serviceEndpoint) = true :=
      List.all_eq_true.mpr hgood
    simp [validate, validateE, hschema, hc, hdoc, hdup, hproof, checkServicePolicy,
      hcfg, hps, hall]

/-- The mock validator parameter set, with one allowed base URL. -/
def psAlpha : ValidatorParameterSet :=
  { id := "did:v1:uuid:pset", allowedServiceBaseUrl := ["https://example.com/"] }

/-- A validator configuration naming the parameter set. -/
def cfgPs : ValidatorConfig :=
  { type := "VeresOneValidator2017", validatorParameterSet := some "did:v1:uuid:pset" }

/-- A ledger holding only the parameter set document. -/
def ledgerPs : Ledger := [("did:v1:uuid:pset", LedgerDoc.paramSet psAlpha)]

/-- A service descriptor with an allowed endpoint. -/
def svcGoodA : ServiceDescriptor :=
  { id := "did:v1:nym:zA1#foo", type := "urn:foo", serviceEndpoint := "https://example.com/api/1" }

/-- A service descriptor with a disallowed endpoint. -/
def svcBadA : ServiceDescriptor :=
  { id := "did:v1:nym:zA1#bar", type := "urn:bar", serviceEndpoint := "https://invalid.com/api/2" }

/-- The first document carrying one allowed and one disallowed service. -/
def docASvcBad : DidDocument := { docA with service := [svcGoodA, svcBadA] }

/-- The first document carrying only the allowed service. -/
def docASvcGood : DidDocument := { docA with service := [svcGoodA] }

/-- A signed create of the document with a disallowed service. -/
def createOpSvcBad : Operation :=
  { content := OpContent.create docASvcBad
    proof := [signOperation "A1" (OpContent.create docASvcBad)
      (mkProofData "did:v1:nym:zA1#zA1" "did:v1:nym:zA1" "create")] }

/-- A signed create of the document with only allowed services. -/
def createOpSvcGood : Operation :=
  { content := OpContent.create docASvcGood
    proof := [signOperation "A1" (OpContent.create docASvcGood)
      (mkProofData "did:v1:nym:zA1#zA1" "did:v1:nym:zA1" "create")] }

/-- C9 witness: scenario S8 with a good and a bad service descriptor,
and the all-good variant accepted. -/
theorem c9_service_policy_witness :
    validate false ledgerPs cfgPs createOpSvcBad =
      { valid := false, error := some (serviceEndpointError ["https://example.com/"]) } ∧
    validate false ledgerPs cfgPs createOpSvcGood = { valid := true, error := none } :=
  ⟨(c9_service_policy false ledgerPs cfgPs createOpSvcBad docASvcBad "did:v1:uuid:pset" psAlpha
      rfl (by decide) (by decide) (by decide) (by decide) rfl (by decide)).1
      ⟨svcBadA, by decide, by decide⟩,
   (c9_service_policy false ledgerPs cfgPs createOpSvcGood docASvcGood "did:v1:uuid:pset" psAlpha
      rfl (by decide) (by decide) (by decide) (by decide) rfl (by decide)).2
      (by decide)⟩

end VeresOne
